import Mathlib

/-!
Verification of the data pipeline of `streamlit_app.py`: year/period grouping
(`get_period_groups`), year filtering of data frames (`filter_df_by_years`),
the correlation section (timestamp join + Pearson coefficient + insufficient
data warnings), and the forecast section's data-cleaning guard.

Python integers are modelled as `ℤ`, timestamps as `Nat` (day ordinals),
numeric cell values as `ℚ`, and the Pearson coefficient as a real number.
-/

/-! ### Period grouping (`get_period_groups`, lines 73-85) -/

/-- `list(range(s, e + 1))` from the source: the integers from `s` to `e`
inclusive, ascending. -/
def intRange (s e : ℤ) : List ℤ :=
  (List.range (e + 1 - s).toNat).map (fun (i : ℕ) => s + (i : ℤ))

/-- `f"{start_year}-{current_year}"` from line 82: the label is always
`"{start}-{end}"`, with no special case for `start = end`. -/
def periodLabel (s e : ℤ) : String :=
  toString s ++ "-" ++ toString e

/-- Python `min(years)` on a list of integers (value on `[]` irrelevant:
the source only calls it on non-empty lists, guarded at line 74). -/
def listMin : List ℤ → ℤ
  | [] => 0
  | x :: xs => xs.foldl min x

/-- Python `max(years)` on a list of integers. -/
def listMax : List ℤ → ℤ
  | [] => 0
  | x :: xs => xs.foldl max x

/-- The `while current_year >= min_year` loop of lines 80-84, driven by fuel.
Each iteration appends the window `[max(min_year, current-(group_size-1)),
current]` and decrements `current` by `group_size`.  The loop is entered only
with `group_size ≥ 1` (guard at line 74), so it runs at most
`max_year - min_year + 1` iterations; callers pass at least that much fuel. -/
def periodLoop (minY gs : ℤ) : Nat → ℤ → List (String × List ℤ)
  | 0, _ => []
  | fuel + 1, current =>
    if minY ≤ current then
      (periodLabel (max minY (current - (gs - 1))) current,
        intRange (max minY (current - (gs - 1))) current)
        :: periodLoop minY gs fuel (current - gs)
    else []

/-- `get_period_groups(years, group_size)`, lines 73-85: guard for empty input
or `group_size < 1`, then the descending while loop from `max(years)` down to
`min(years)`. -/
def get_period_groups (years : List ℤ) (gs : ℤ) : List (String × List ℤ) :=
  if years.isEmpty ∨ gs < 1 then []
  else
    periodLoop (listMin years) gs
      ((listMax years - listMin years).toNat + 1) (listMax years)

theorem mem_intRange {s e z : ℤ} : z ∈ intRange s e ↔ s ≤ z ∧ z ≤ e := by
  constructor
  · intro hz
    obtain ⟨i, hi, hz⟩ := List.mem_map.mp hz
    have hlt : i < (e + 1 - s).toNat := List.mem_range.mp hi
    omega
  · intro h
    obtain ⟨h1, h2⟩ := h
    refine List.mem_map.mpr ⟨(z - s).toNat, List.mem_range.mpr ?_, ?_⟩ <;> omega

theorem foldl_min_le_init : ∀ (xs : List ℤ) (a : ℤ), xs.foldl min a ≤ a := by
  intro xs
  induction xs with
  | nil => intro a; exact le_refl a
  | cons x xs ih =>
    intro a
    calc (x :: xs).foldl min a = xs.foldl min (min a x) := rfl
    _ ≤ min a x := ih (min a x)
    _ ≤ a := min_le_left a x

theorem foldl_min_le_mem : ∀ (xs : List ℤ) (a y : ℤ), y ∈ xs → xs.foldl min a ≤ y := by
  intro xs
  induction xs with
  | nil => intro a y hy; cases hy
  | cons x xs ih =>
    intro a y hy
    rcases List.mem_cons.mp hy with h | h
    · subst h
      calc (y :: xs).foldl min a = xs.foldl min (min a y) := rfl
      _ ≤ min a y := foldl_min_le_init xs (min a y)
      _ ≤ y := min_le_right a y
    · exact ih (min a x) y h

theorem init_le_foldl_max : ∀ (xs : List ℤ) (a : ℤ), a ≤ xs.foldl max a := by
  intro xs
  induction xs with
  | nil => intro a; exact le_refl a
  | cons x xs ih =>
    intro a
    calc a ≤ max a x := le_max_left a x
    _ ≤ xs.foldl max (max a x) := ih (max a x)
    _ = (x :: xs).foldl max a := rfl

theorem mem_le_foldl_max : ∀ (xs : List ℤ) (a y : ℤ), y ∈ xs → y ≤ xs.foldl max a := by
  intro xs
  induction xs with
  | nil => intro a y hy; cases hy
  | cons x xs ih =>
    intro a y hy
    rcases List.mem_cons.mp hy with h | h
    · subst h
      calc y ≤ max a y := le_max_right a y
      _ ≤ xs.foldl max (max a y) := init_le_foldl_max xs (max a y)
    · exact ih (max a x) y h

theorem listMin_le {l : List ℤ} {y : ℤ} (hy : y ∈ l) : listMin l ≤ y := by
  cases l with
  | nil => cases hy
  | cons x xs =>
    rcases List.mem_cons.mp hy with h | h
    · subst h; exact foldl_min_le_init xs y
    · exact foldl_min_le_mem xs x y h

theorem le_listMax {l : List ℤ} {y : ℤ} (hy : y ∈ l) : y ≤ listMax l := by
  cases l with
  | nil => cases hy
  | cons x xs =>
    rcases List.mem_cons.mp hy with h | h
    · subst h; exact init_le_foldl_max xs y
    · exact mem_le_foldl_max xs x y h

theorem periodLoop_eq_nil (minY gs : ℤ) (fuel : Nat) (current : ℤ)
    (h : current < minY) : periodLoop minY gs fuel current = [] := by
  cases fuel with
  | zero => rfl
  | succ f =>
    unfold periodLoop
    rw [if_neg (by omega)]

/-- Coverage invariant of the while loop: for enough fuel, each integer in
`[minY, current]` lies in exactly one emitted window and integers outside lie
in none. -/
theorem periodLoop_countP (minY gs : ℤ) (hgs : 1 ≤ gs) :
    ∀ (fuel : Nat) (current : ℤ), current - minY < (fuel : ℤ) →
      ∀ z : ℤ, (periodLoop minY gs fuel current).countP (fun g => decide (z ∈ g.2)) =
        if minY ≤ z ∧ z ≤ current then 1 else 0 := by
  intro fuel
  induction fuel with
  | zero =>
    intro current h z
    rw [periodLoop, List.countP_nil, if_neg (by omega)]
  | succ f ih =>
    intro current h z
    by_cases hc : minY ≤ current
    · rw [periodLoop, if_pos hc]
      simp only [List.countP_cons, decide_eq_true_eq, mem_intRange]
      rw [ih (current - gs) (by omega) z]
      rcases le_total minY (current - (gs - 1)) with hle | hle
      · rw [max_eq_right hle]
        split_ifs <;> omega
      · rw [max_eq_left hle]
        split_ifs <;> omega
    · rw [periodLoop, if_neg hc, List.countP_nil, if_neg (by omega)]

/-- Shape invariant: every emitted group is a labelled contiguous window inside
`[minY, current]`. -/
theorem periodLoop_shape (minY gs : ℤ) (hgs : 1 ≤ gs) :
    ∀ (fuel : Nat) (current : ℤ), ∀ g ∈ periodLoop minY gs fuel current,
      ∃ s e, s ≤ e ∧ minY ≤ s ∧ e ≤ current ∧ g.1 = periodLabel s e ∧ g.2 = intRange s e := by
  intro fuel
  induction fuel with
  | zero =>
    intro current g hg
    rw [periodLoop] at hg
    cases hg
  | succ f ih =>
    intro current g hg
    by_cases hc : minY ≤ current
    · rw [periodLoop, if_pos hc] at hg
      rcases List.mem_cons.mp hg with h | h
      · exact ⟨max minY (current - (gs - 1)), current,
          by omega, le_max_left _ _, le_refl _, by rw [h], by rw [h]⟩
      · obtain ⟨s, e, h1, h2, h3, h4, h5⟩ := ih (current - gs) g h
        exact ⟨s, e, h1, h2, by omega, h4, h5⟩
    · rw [periodLoop, if_neg hc] at hg
      cases hg

/-- Ordering invariant: windows are emitted strictly descending — every year of
a later window is smaller than every year of an earlier window (so the windows
are also pairwise disjoint). -/
theorem periodLoop_pairwise (minY gs : ℤ) (hgs : 1 ≤ gs) :
    ∀ (fuel : Nat) (current : ℤ),
      (periodLoop minY gs fuel current).Pairwise
        (fun g1 g2 => ∀ y1 ∈ g1.2, ∀ y2 ∈ g2.2, y2 < y1) := by
  intro fuel
  induction fuel with
  | zero =>
    intro current
    rw [periodLoop]
    exact List.Pairwise.nil
  | succ f ih =>
    intro current
    by_cases hc : minY ≤ current
    · rw [periodLoop, if_pos hc]
      refine List.Pairwise.cons ?_ (ih (current - gs))
      intro g hg y1 hy1 y2 hy2
      obtain ⟨s, e, h1, h2, h3, h4, h5⟩ := periodLoop_shape minY gs hgs f (current - gs) g hg
      have hb1 := mem_intRange.mp hy1
      rw [h5] at hy2
      have hb2 := mem_intRange.mp hy2
      omega
    · rw [periodLoop, if_neg hc]
      exact List.Pairwise.nil

/-- C1: for every non-empty collection of years and every `group_size ≥ 1`,
`get_period_groups` returns groups such that every input year appears in
exactly one output group, each group is a contiguous year window, and the
groups are pairwise non-overlapping and ordered most recent first (every year
of a later group is strictly smaller than every year of an earlier group). -/
theorem get_period_groups_partition (years : List ℤ) (gs : ℤ)
    (hys : years ≠ []) (hgs : 1 ≤ gs) :
    (∀ y ∈ years, (get_period_groups years gs).countP (fun g => decide (y ∈ g.2)) = 1)
  ∧ (∀ g ∈ get_period_groups years gs, ∃ s e, s ≤ e ∧ g.2 = intRange s e)
  ∧ (get_period_groups years gs).Pairwise
      (fun g1 g2 => ∀ y1 ∈ g1.2, ∀ y2 ∈ g2.2, y2 < y1) := by
  have hguard : ¬(years.isEmpty = true ∨ gs < 1) := by
    intro hor
    rcases hor with h | h
    · exact hys (List.isEmpty_iff.mp h)
    · omega
  obtain ⟨y0, hy0⟩ := List.exists_mem_of_ne_nil years hys
  have hmm : listMin years ≤ listMax years :=
    le_trans (listMin_le hy0) (le_listMax hy0)
  have hfuel : listMax years - listMin years
      < (((listMax years - listMin years).toNat + 1 : ℕ) : ℤ) := by omega
  unfold get_period_groups
  rw [if_neg hguard]
  refine ⟨?_, ?_, ?_⟩
  · intro y hy
    rw [periodLoop_countP _ _ hgs _ _ hfuel y,
      if_pos ⟨listMin_le hy, le_listMax hy⟩]
  · intro g hg
    obtain ⟨s, e, h1, _, _, _, h5⟩ := periodLoop_shape _ _ hgs _ _ g hg
    exact ⟨s, e, h1, h5⟩
  · exact periodLoop_pairwise _ _ hgs _ _

/-- Witness for C1 at `years = [2019, 2020, 2021, 2022]`, `group_size = 2`. -/
theorem get_period_groups_partition_witness :
    ([2019, 2020, 2021, 2022] : List ℤ) ≠ [] ∧ (1 : ℤ) ≤ 2 ∧
    ((∀ y ∈ ([2019, 2020, 2021, 2022] : List ℤ),
        (get_period_groups [2019, 2020, 2021, 2022] 2).countP
          (fun g => decide (y ∈ g.2)) = 1)
      ∧ (∀ g ∈ get_period_groups [2019, 2020, 2021, 2022] 2,
          ∃ s e, s ≤ e ∧ g.2 = intRange s e)
      ∧ (get_period_groups [2019, 2020, 2021, 2022] 2).Pairwise
          (fun g1 g2 => ∀ y1 ∈ g1.2, ∀ y2 ∈ g2.2, y2 < y1)) :=
  ⟨by decide, by decide, get_period_groups_partition _ _ (by decide) (by decide)⟩

/-- C7: `get_period_groups` fails closed — empty `years` or `group_size < 1`
yields the empty list (guard at lines 74-75). -/
theorem get_period_groups_fail_closed (years : List ℤ) (gs : ℤ)
    (h : years = [] ∨ gs < 1) : get_period_groups years gs = [] := by
  unfold get_period_groups
  rcases h with h | h
  · rw [if_pos (Or.inl (by simp [h]))]
  · rw [if_pos (Or.inr h)]

/-- Witness for C7 at `years = []`, `group_size = 5`. -/
theorem get_period_groups_fail_closed_witness :
    (([] : List ℤ) = [] ∨ (5 : ℤ) < 1) ∧ get_period_groups [] 5 = [] :=
  ⟨Or.inl rfl, get_period_groups_fail_closed [] 5 (Or.inl rfl)⟩

/-- C2 counterexample: for the single year 2019 with `group_size = 2` the
window has `start = end = 2019`, yet the produced label is `"2019-2019"`,
not the bare year `"2019"` the claim describes. -/
theorem get_period_groups_single_year_label :
    get_period_groups [2019] 2 = [("2019-2019", [2019])]
  ∧ ("2019-2019" : String) ≠ "2019" := by
  constructor
  · decide
  · decide

/-- C2 amended: every group's label is always `"{start}-{end}"`, including
single-year windows where `start = end` (there is no single-year special
case in the code). -/
theorem get_period_groups_label_format (years : List ℤ) (gs : ℤ) :
    ∀ g ∈ get_period_groups years gs,
      ∃ s e, s ≤ e ∧ g.1 = periodLabel s e ∧ g.2 = intRange s e := by
  intro g hg
  unfold get_period_groups at hg
  by_cases hguard : years.isEmpty = true ∨ gs < 1
  · rw [if_pos hguard] at hg
    cases hg
  · rw [if_neg hguard] at hg
    have hgs : 1 ≤ gs := by
      rcases not_or.mp hguard with ⟨_, h2⟩
      omega
    obtain ⟨s, e, h1, _, _, h4, h5⟩ := periodLoop_shape _ _ hgs _ _ g hg
    exact ⟨s, e, h1, h4, h5⟩

/-- Witness for the amended C2 at `years = [2020, 2021]`, `group_size = 2`. -/
theorem get_period_groups_label_format_witness :
    ("2020-2021", ([2020, 2021] : List ℤ)) ∈ get_period_groups [2020, 2021] 2 ∧
    ∃ s e, s ≤ e ∧ ("2020-2021", ([2020, 2021] : List ℤ)).1 = periodLabel s e ∧
      ("2020-2021", ([2020, 2021] : List ℤ)).2 = intRange s e :=
  ⟨by decide,
    get_period_groups_label_format [2020, 2021] 2
      ("2020-2021", ([2020, 2021] : List ℤ)) (by decide)⟩

/-! ### Year filtering (`filter_df_by_years`, lines 168-173)

A fetched frame has columns `data_referencia` (timestamp), one value column,
and — when `data_referencia` was present at fetch time — a derived `ano`
column (lines 61-63).  A cell of the `ano` column is a number, a NaN, or
(for robustness of the general function) non-numeric text. -/

/-- One cell of the `ano` column.  `txt` models a string that does not parse
as a number (numeric strings never occur here: `ano` is derived via
`.dt.year`, which yields integers). -/
inductive Cell where
  | num (q : ℚ)
  | txt (s : String)
  | na
deriving DecidableEq

/-- One row of an indicator frame: timestamp, value, and `ano` cell. -/
structure FRow where
  ts : Nat
  value : ℚ
  ano : Cell
deriving DecidableEq

/-- An indicator frame: whether the `ano` column exists, plus the rows. -/
structure DataFrame where
  hasAnoCol : Bool
  rows : List FRow
deriving DecidableEq

/-- `pd.to_numeric(col, errors="coerce")` on one `ano` cell: numbers pass
through, anything that fails numeric coercion (missing value, non-numeric
text) becomes NaN instead of raising. -/
def toNumericCoerce : Cell → Cell
  | .num q => .num q
  | .txt _ => .na
  | .na => .na

/-- Row after the `ano`-column coercion of line 172. -/
def coerceRow (r : FRow) : FRow :=
  { r with ano := toNumericCoerce r.ano }

/-- `.isin(years)` on one coerced cell: NaN and text are members of nothing. -/
def cellInYears (years : List ℤ) : Cell → Bool
  | .num q => years.any (fun y => decide ((y : ℚ) = q))
  | .txt _ => false
  | .na => false

/-- The boolean mask `df_copy["ano"].isin(years)` of line 173, per row. -/
def anoMem (years : List ℤ) (r : FRow) : Bool :=
  cellInYears years r.ano

/-- Ascending-timestamp order used by `.sort_values(by='data_referencia')`. -/
def tsLE (a b : FRow) : Prop := a.ts ≤ b.ts

instance : DecidableRel tsLE := fun a b => inferInstanceAs (Decidable (a.ts ≤ b.ts))

instance : IsTotal FRow tsLE := ⟨fun a b => Nat.le_total a.ts b.ts⟩

instance : IsTrans FRow tsLE := ⟨fun _ _ _ hab hbc => Nat.le_trans hab hbc⟩

/-- `filter_df_by_years(df, years)`, lines 168-173: return the frame
unchanged when it is empty or lacks the `ano` column; otherwise copy, coerce
the `ano` column to numeric, keep rows whose `ano` is in `years`, and sort
ascending by timestamp. -/
def filter_df_by_years (df : DataFrame) (years : List ℤ) : DataFrame :=
  if df.rows.isEmpty ∨ df.hasAnoCol = false then df
  else
    ⟨df.hasAnoCol,
      List.insertionSort tsLE ((df.rows.map coerceRow).filter (anoMem years))⟩

/-- Coercing the `ano` column does not change which rows the mask keeps, nor
the kept rows themselves (a kept row has a numeric `ano`, which coercion
fixes). -/
theorem filter_map_coerce (l : List FRow) (ys : List ℤ) :
    (l.map coerceRow).filter (anoMem ys) = l.filter (anoMem ys) := by
  induction l with
  | nil => rfl
  | cons r l ih =>
    obtain ⟨ts, v, ano⟩ := r
    cases ano with
    | num q =>
      rw [List.map_cons, List.filter_cons, List.filter_cons, ih]
      rfl
    | txt s =>
      rw [List.map_cons, List.filter_cons, List.filter_cons, ih]
      rfl
    | na =>
      rw [List.map_cons, List.filter_cons, List.filter_cons, ih]
      rfl

/-- C4: `filter_df_by_years` returns the input unchanged when the frame is
empty or has no `ano` column; otherwise it returns exactly the rows whose
year is in the given set (rows with missing or non-coercible years are
silently excluded), sorted ascending by timestamp. -/
theorem filter_df_by_years_spec (df : DataFrame) (years : List ℤ) :
    (df.rows = [] ∨ df.hasAnoCol = false → filter_df_by_years df years = df)
  ∧ (df.rows ≠ [] → df.hasAnoCol = true →
      (filter_df_by_years df years).rows.Sorted tsLE
    ∧ ((filter_df_by_years df years).rows).Perm (df.rows.filter (anoMem years))
    ∧ ∀ r ∈ (filter_df_by_years df years).rows,
        ∃ q, r.ano = Cell.num q ∧ ∃ y ∈ years, (y : ℚ) = q) := by
  constructor
  · intro h
    unfold filter_df_by_years
    rcases h with h | h
    · rw [if_pos (Or.inl (by simp [h]))]
    · rw [if_pos (Or.inr h)]
  · intro h1 h2
    have hguard : ¬(df.rows.isEmpty = true ∨ df.hasAnoCol = false) := by
      simp [List.isEmpty_iff, h1, h2]
    unfold filter_df_by_years
    rw [if_neg hguard]
    refine ⟨List.sorted_insertionSort tsLE _, ?_, ?_⟩
    · show (List.insertionSort tsLE ((df.rows.map coerceRow).filter (anoMem years))).Perm
        (df.rows.filter (anoMem years))
      rw [filter_map_coerce]
      exact List.perm_insertionSort tsLE _
    · intro r hr
      have hr2 : r ∈ (df.rows.map coerceRow).filter (anoMem years) :=
        (List.mem_insertionSort tsLE).mp hr
      have hmask : anoMem years r = true := (List.mem_filter.mp hr2).2
      cases hra : r.ano with
      | num q =>
        rw [anoMem, hra] at hmask
        obtain ⟨y, hy, hyq⟩ := List.any_eq_true.mp hmask
        exact ⟨q, rfl, y, hy, of_decide_eq_true hyq⟩
      | txt s =>
        rw [anoMem, hra] at hmask
        cases hmask
      | na =>
        rw [anoMem, hra] at hmask
        cases hmask

/-- Concrete frame used by the C4 witness: three rows, out of timestamp
order, one with a missing year. -/
def wDF : DataFrame :=
  ⟨true, [⟨2, 5, Cell.num 2021⟩, ⟨1, 3, Cell.num 2020⟩, ⟨3, 7, Cell.na⟩]⟩

/-- Witness for C4 at `wDF` with years `{2020, 2021}`. -/
theorem filter_df_by_years_spec_witness :
    wDF.rows ≠ [] ∧ wDF.hasAnoCol = true ∧
    ((filter_df_by_years wDF [2020, 2021]).rows.Sorted tsLE
      ∧ ((filter_df_by_years wDF [2020, 2021]).rows).Perm (wDF.rows.filter (anoMem [2020, 2021]))
      ∧ ∀ r ∈ (filter_df_by_years wDF [2020, 2021]).rows,
          ∃ q, r.ano = Cell.num q ∧ ∃ y ∈ ([2020, 2021] : List ℤ), (y : ℚ) = q) :=
  ⟨by decide, rfl, (filter_df_by_years_spec wDF [2020, 2021]).2 (by decide) rfl⟩

/-- C5: `filter_df_by_years` is idempotent — filtering an already-filtered
frame by the same year set returns an identical frame. -/
theorem filter_df_by_years_idem (df : DataFrame) (years : List ℤ) :
    filter_df_by_years (filter_df_by_years df years) years
      = filter_df_by_years df years := by
  by_cases hg : df.rows.isEmpty = true ∨ df.hasAnoCol = false
  · have h1 : filter_df_by_years df years = df := by
      unfold filter_df_by_years
      rw [if_pos hg]
    rw [h1, h1]
  · have h1 : filter_df_by_years df years =
        ⟨df.hasAnoCol,
          List.insertionSort tsLE ((df.rows.map coerceRow).filter (anoMem years))⟩ := by
      unfold filter_df_by_years
      rw [if_neg hg]
    rw [h1]
    by_cases hL0 :
      (List.insertionSort tsLE ((df.rows.map coerceRow).filter (anoMem years))).isEmpty = true
    · unfold filter_df_by_years
      rw [if_pos (Or.inl hL0)]
    · have hcol : df.hasAnoCol = true := by
        rcases not_or.mp hg with ⟨_, h2⟩
        simpa using h2
      unfold filter_df_by_years
      rw [if_neg (by
        intro hor
        rcases hor with h | h
        · exact hL0 h
        · rw [hcol] at h
          cases h)]
      show DataFrame.mk df.hasAnoCol
          (List.insertionSort tsLE
            (((List.insertionSort tsLE
              ((df.rows.map coerceRow).filter (anoMem years))).map coerceRow).filter
                (anoMem years)))
        = DataFrame.mk df.hasAnoCol
            (List.insertionSort tsLE ((df.rows.map coerceRow).filter (anoMem years)))
      have hmem : ∀ r ∈
          List.insertionSort tsLE ((df.rows.map coerceRow).filter (anoMem years)),
          anoMem years r = true := by
        intro r hrL
        exact (List.mem_filter.mp ((List.mem_insertionSort tsLE).mp hrL)).2
      rw [filter_map_coerce, List.filter_eq_self.mpr hmem]
      rw [List.Sorted.insertionSort_eq (List.sorted_insertionSort tsLE _)]

/-- The `selected_years_final` fallback of lines 146-149: an empty multiselect
defaults to the full list of available years. -/
def selectedYearsFinal (selected sortedYears : List ℤ) : List ℤ :=
  if selected.isEmpty then sortedYears else selected

/-- C10: with an empty user selection the effective selection is the full set
of available years, and filtering any series with it keeps every row (up to
the re-sort), rather than dropping everything as an empty set would. -/
theorem empty_selection_uses_all_years (df : DataFrame) (allYears : List ℤ)
    (hall : ∀ r ∈ df.rows, ∃ y ∈ allYears, r.ano = Cell.num (y : ℚ)) :
    selectedYearsFinal [] allYears = allYears
  ∧ ((filter_df_by_years df (selectedYearsFinal [] allYears)).rows).Perm df.rows := by
  refine ⟨rfl, ?_⟩
  by_cases hg : df.rows.isEmpty = true ∨ df.hasAnoCol = false
  · have h1 : filter_df_by_years df (selectedYearsFinal [] allYears) = df := by
      unfold filter_df_by_years
      rw [if_pos hg]
    rw [h1]
  · unfold filter_df_by_years
    rw [if_neg hg]
    have hmem : ∀ r ∈ df.rows, anoMem (selectedYearsFinal [] allYears) r = true := by
      intro r hr
      obtain ⟨y, hy, hra⟩ := hall r hr
      rw [anoMem, hra]
      show cellInYears allYears (Cell.num (y : ℚ)) = true
      rw [cellInYears]
      exact List.any_eq_true.mpr ⟨y, hy, decide_eq_true rfl⟩
    show (List.insertionSort tsLE
        ((df.rows.map coerceRow).filter (anoMem (selectedYearsFinal [] allYears)))).Perm
      df.rows
    rw [filter_map_coerce, List.filter_eq_self.mpr hmem]
    exact List.perm_insertionSort tsLE _

/-- Concrete frame used by the C10 witness. -/
def wDF10 : DataFrame :=
  ⟨true, [⟨1, 3, Cell.num 2020⟩, ⟨2, 4, Cell.num 2021⟩]⟩

/-- Witness for C10 at `wDF10` with available years `{2020, 2021}`. -/
theorem empty_selection_uses_all_years_witness :
    (∀ r ∈ wDF10.rows, ∃ y ∈ ([2020, 2021] : List ℤ), r.ano = Cell.num (y : ℚ)) ∧
    (selectedYearsFinal [] [2020, 2021] = [2020, 2021]
      ∧ ((filter_df_by_years wDF10 (selectedYearsFinal [] [2020, 2021])).rows).Perm wDF10.rows) :=
  ⟨by decide, empty_selection_uses_all_years wDF10 [2020, 2021] (by decide)⟩

/-! ### C9: filtering does not mutate the cached frame

`filter_df_by_years` is modelled on an explicit heap of frames to make the
Python aliasing structure visible: `df.copy()` (line 171) allocates a fresh
frame at the end of the heap, the `ano` coercion (line 172) mutates that
copy in place, and the mask-and-sort (line 173) builds the returned frame.
The cached input frame, referenced by its heap index, is never written. -/

/-- Default frame used for out-of-range heap reads. -/
def emptyDF : DataFrame := ⟨false, []⟩

/-- Heap-level execution of `filter_df_by_years` on the frame at index `i`:
returns the new heap and the index of the frame the function returns. -/
def filterStepHeap (h : List DataFrame) (i : Nat) (years : List ℤ) :
    List DataFrame × Nat :=
  let df := h.getD i emptyDF
  if df.rows.isEmpty ∨ df.hasAnoCol = false then (h, i)
  else
    let h1 := h ++ [df]
    let h2 := h1.set h.length ⟨df.hasAnoCol, df.rows.map coerceRow⟩
    let result : DataFrame :=
      ⟨df.hasAnoCol,
        List.insertionSort tsLE ((df.rows.map coerceRow).filter (anoMem years))⟩
    (h2 ++ [result], h2.length)

/-- The frame the heap step returns is exactly what the pure model of
`filter_df_by_years` computes on the input frame. -/
theorem filterStepHeap_models_filter (h : List DataFrame) (i : Nat) (years : List ℤ) :
    ((filterStepHeap h i years).1).getD (filterStepHeap h i years).2 emptyDF
      = filter_df_by_years (h.getD i emptyDF) years := by
  by_cases hg : (h.getD i emptyDF).rows.isEmpty = true ∨ (h.getD i emptyDF).hasAnoCol = false
  · have hstep : filterStepHeap h i years = (h, i) := by
      unfold filterStepHeap
      rw [if_pos hg]
    have hfil : filter_df_by_years (h.getD i emptyDF) years = h.getD i emptyDF := by
      unfold filter_df_by_years
      rw [if_pos hg]
    rw [hstep, hfil]
  · have hstep : filterStepHeap h i years =
        (((h ++ [h.getD i emptyDF]).set h.length
            ⟨(h.getD i emptyDF).hasAnoCol, (h.getD i emptyDF).rows.map coerceRow⟩)
          ++ [⟨(h.getD i emptyDF).hasAnoCol,
              List.insertionSort tsLE
                (((h.getD i emptyDF).rows.map coerceRow).filter (anoMem years))⟩],
          ((h ++ [h.getD i emptyDF]).set h.length
            ⟨(h.getD i emptyDF).hasAnoCol, (h.getD i emptyDF).rows.map coerceRow⟩).length) := by
      unfold filterStepHeap
      rw [if_neg hg]
    have hfil : filter_df_by_years (h.getD i emptyDF) years =
        ⟨(h.getD i emptyDF).hasAnoCol,
          List.insertionSort tsLE
            (((h.getD i emptyDF).rows.map coerceRow).filter (anoMem years))⟩ := by
      unfold filter_df_by_years
      rw [if_neg hg]
    rw [hstep, hfil]
    rw [List.getD_eq_getElem?_getD, List.getElem?_concat_length]
    rfl

/-- C9: executing `filter_df_by_years` on the heap leaves the input frame
unchanged — the copy at line 171 is what gets coerced in place, and the
returned frame is a fresh allocation. -/
theorem filterStepHeap_preserves_input (h : List DataFrame) (i : Nat)
    (years : List ℤ) (hi : i < h.length) :
    ((filterStepHeap h i years).1).getD i emptyDF = h.getD i emptyDF := by
  by_cases hg : (h.getD i emptyDF).rows.isEmpty = true ∨ (h.getD i emptyDF).hasAnoCol = false
  · have hstep : filterStepHeap h i years = (h, i) := by
      unfold filterStepHeap
      rw [if_pos hg]
    rw [hstep]
  · have hstep : (filterStepHeap h i years).1 =
        ((h ++ [h.getD i emptyDF]).set h.length
            ⟨(h.getD i emptyDF).hasAnoCol, (h.getD i emptyDF).rows.map coerceRow⟩)
          ++ [⟨(h.getD i emptyDF).hasAnoCol,
              List.insertionSort tsLE
                (((h.getD i emptyDF).rows.map coerceRow).filter (anoMem years))⟩] := by
      unfold filterStepHeap
      rw [if_neg hg]
    rw [hstep]
    rw [List.getD_eq_getElem?_getD, List.getD_eq_getElem?_getD]
    rw [List.getElem?_append_left (by rw [List.length_set, List.length_append]; omega)]
    rw [List.getElem?_set_ne (by omega)]
    rw [List.getElem?_append_left hi]

/-- Concrete heap for the C9 witness: one cached frame. -/
def wHeap : List DataFrame := [⟨true, [⟨5, 10, Cell.num 2020⟩]⟩]

/-- Witness for C9 at `wHeap`, index 0, years `{2020}`. -/
theorem filterStepHeap_preserves_input_witness :
    0 < wHeap.length ∧
    ((filterStepHeap wHeap 0 [2020]).1).getD 0 emptyDF = wHeap.getD 0 emptyDF :=
  ⟨by decide, filterStepHeap_preserves_input wHeap 0 [2020] (by decide)⟩

/-! ### Correlation section (lines 278-292)

The two frames offered for correlation are filtered frames, so every row has
a numeric `ano` (it passed the `isin` mask); a correlation row is therefore
(timestamp, value, year).  After `set_index('data_referencia')` each frame
has columns `[value, ano]`; `pd.merge(df1, df2, left_index=True,
right_index=True, how="inner")` suffixes the overlapping `ano` columns,
giving the column order `[value1, ano_x, value2, ano_y]`.  The code then
takes `df_merged.columns[0]` and `df_merged.columns[1]` as the two
correlation operands. -/

/-- One row of a filtered frame as seen by the correlation section. -/
structure CRow where
  ts : Nat
  v : ℚ
  ano : ℚ
deriving DecidableEq

/-- The inner join on exact timestamps of line 280, in left-frame order
(both frames arrive sorted ascending by timestamp). -/
def mergeRows (df1 df2 : List CRow) : List (CRow × CRow) :=
  df1.filterMap (fun r => (df2.find? (fun s => s.ts == r.ts)).map (fun s => (r, s)))

/-- The merged frame's columns, in pandas order: `df1`'s columns then `df2`'s,
with the overlapping name `ano` suffixed to `ano_x`/`ano_y`.  Each column is
its name paired with its projection out of a merged row. -/
def mergedColumns (n1 n2 : String) : List (String × (CRow × CRow → ℚ)) :=
  [(n1, fun p => p.1.v), ("ano_x", fun p => p.1.ano),
   (n2, fun p => p.2.v), ("ano_y", fun p => p.2.ano)]

/-- The merged column names are `[value1, ano_x, value2, ano_y]`. -/
theorem mergedColumns_names (n1 n2 : String) :
    (mergedColumns n1 n2).map Prod.fst = [n1, "ano_x", n2, "ano_y"] := rfl

/-- Mean of a column. -/
def qMean (l : List ℚ) : ℚ := l.sum / l.length

/-- Sum of products of deviations from the means (the numerator of the
Pearson coefficient; pandas' 1/(n-1) factors cancel in the ratio). -/
def covSum (xs ys : List ℚ) : ℚ :=
  ((xs.zip ys).map (fun p => (p.1 - qMean xs) * (p.2 - qMean ys))).sum

/-- Sum of squared deviations from the mean. -/
def varSum (xs : List ℚ) : ℚ :=
  (xs.map (fun x => (x - qMean xs) ^ 2)).sum

/-- Pearson correlation coefficient of two aligned columns, as computed by
`Series.corr`: Σ dx·dy / (√Σ dx² · √Σ dy²).  (Division by a zero standard
deviation is the NaN case; it does not arise at the inputs studied here.) -/
noncomputable def pearson (xs ys : List ℚ) : ℝ :=
  (covSum xs ys : ℝ) / (Real.sqrt (varSum xs) * Real.sqrt (varSum ys))

/-- Outcome of the correlation section: a displayed coefficient (line 286), the
insufficient-data warning (line 290), or the no-common-dates warning
(line 292). -/
inductive CorrOutcome where
  | coefficient (c : ℝ)
  | warnInsufficient
  | warnNoCommon

/-- Lines 278-292: join the two frames on timestamps; if the merge is
non-empty with more than one row, display the Pearson coefficient of merged
columns 0 and 1; otherwise warn.  Columns 0 and 1 are `value1` and `ano_x`
(see `mergedColumns`). -/
noncomputable def corrSection (n1 n2 : String) (df1 df2 : List CRow) : CorrOutcome :=
  if ¬(mergeRows df1 df2).isEmpty = true ∧ 1 < (mergeRows df1 df2).length then
    CorrOutcome.coefficient
      (pearson
        ((mergeRows df1 df2).map ((mergedColumns n1 n2).getD 0 ("", fun _ => 0)).2)
        ((mergeRows df1 df2).map ((mergedColumns n1 n2).getD 1 ("", fun _ => 0)).2))
  else if (mergeRows df1 df2).length ≤ 1 then CorrOutcome.warnInsufficient
  else CorrOutcome.warnNoCommon

/-- First indicator frame of the counterexamples: values 1, 2 at timestamps
1, 2 in years 2020, 2021. -/
def dfA : List CRow := [⟨1, 1, 2020⟩, ⟨2, 2, 2021⟩]

/-- Second indicator frame: values 5, 3 at the same timestamps. -/
def dfB : List CRow := [⟨1, 5, 2020⟩, ⟨2, 3, 2021⟩]

/-- Truncated first frame sharing only one timestamp with `dfB`. -/
def dfA1 : List CRow := [⟨1, 1, 2020⟩]

theorem pearson_12_year : pearson [1, 2] [2020, 2021] = 1 := by
  have h1 : covSum [1, 2] [2020, 2021] = 1/2 := by
    norm_num [covSum, qMean, List.zip, List.zipWith, List.sum_cons, List.sum_nil]
  have h2 : varSum [1, 2] = 1/2 := by
    norm_num [varSum, qMean, List.sum_cons, List.sum_nil]
  have h3 : varSum [2020, 2021] = 1/2 := by
    norm_num [varSum, qMean, List.sum_cons, List.sum_nil]
  rw [pearson, h1, h2, h3]
  rw [show (((1 : ℚ)/2 : ℚ) : ℝ) = 1/2 by norm_num]
  rw [Real.mul_self_sqrt (by norm_num : (0 : ℝ) ≤ 1/2)]
  norm_num

theorem pearson_53_year : pearson [5, 3] [2020, 2021] = -1 := by
  have h1 : covSum [5, 3] [2020, 2021] = -1 := by
    norm_num [covSum, qMean, List.zip, List.zipWith, List.sum_cons, List.sum_nil]
  have h2 : varSum [5, 3] = 2 := by
    norm_num [varSum, qMean, List.sum_cons, List.sum_nil]
  have h3 : varSum [2020, 2021] = 1/2 := by
    norm_num [varSum, qMean, List.sum_cons, List.sum_nil]
  rw [pearson, h1, h2, h3]
  rw [show (((1 : ℚ)/2 : ℚ) : ℝ) = 1/2 by norm_num, show (((2 : ℚ)) : ℝ) = 2 by norm_num]
  rw [← Real.sqrt_mul (by norm_num : (0 : ℝ) ≤ 2)]
  norm_num

theorem pearson_12_53 : pearson [1, 2] [5, 3] = -1 := by
  have h1 : covSum [1, 2] [5, 3] = -1 := by
    norm_num [covSum, qMean, List.zip, List.zipWith, List.sum_cons, List.sum_nil]
  have h2 : varSum [1, 2] = 1/2 := by
    norm_num [varSum, qMean, List.sum_cons, List.sum_nil]
  have h3 : varSum [5, 3] = 2 := by
    norm_num [varSum, qMean, List.sum_cons, List.sum_nil]
  rw [pearson, h1, h2, h3]
  rw [show (((1 : ℚ)/2 : ℚ) : ℝ) = 1/2 by norm_num, show (((2 : ℚ)) : ℝ) = 2 by norm_num]
  rw [← Real.sqrt_mul (by norm_num : (0 : ℝ) ≤ 1/2)]
  norm_num

/-- C3 (bug exhibit): with two aligned pairs the section does display a
coefficient, but it is the Pearson coefficient of merged columns 0 and 1 —
the first series' values against the first series' *year* column `ano_x`
(here 1.000) — not the coefficient over the two series' aligned values
(here −1.000).  With fewer than two aligned pairs the insufficient-data
warning is produced instead of any numeric display, as the claim states. -/
theorem corr_section_column_bug :
    corrSection "selic" "ipca" dfA dfB
      = CorrOutcome.coefficient
          (pearson ((mergeRows dfA dfB).map (fun p => p.1.v))
            ((mergeRows dfA dfB).map (fun p => p.1.ano)))
  ∧ pearson ((mergeRows dfA dfB).map (fun p => p.1.v))
      ((mergeRows dfA dfB).map (fun p => p.1.ano)) = 1
  ∧ pearson ((mergeRows dfA dfB).map (fun p => p.1.v))
      ((mergeRows dfA dfB).map (fun p => p.2.v)) = -1
  ∧ corrSection "selic" "ipca" dfA1 dfB = CorrOutcome.warnInsufficient := by
  refine ⟨rfl, ?_, ?_, rfl⟩
  · rw [show (mergeRows dfA dfB).map (fun p => p.1.v) = [1, 2] from rfl,
      show (mergeRows dfA dfB).map (fun p => p.1.ano) = [2020, 2021] from rfl]
    exact pearson_12_year
  · rw [show (mergeRows dfA dfB).map (fun p => p.1.v) = [1, 2] from rfl,
      show (mergeRows dfA dfB).map (fun p => p.2.v) = [5, 3] from rfl]
    exact pearson_12_53

/-- C6 (bug exhibit): the displayed coefficient is not symmetric in the two
selected indicators — swapping them changes the result from 1 to −1, because
each direction correlates the *first* frame's values with that same frame's
year column. -/
theorem corr_not_symmetric :
    corrSection "selic" "ipca" dfA dfB = CorrOutcome.coefficient 1
  ∧ corrSection "ipca" "selic" dfB dfA = CorrOutcome.coefficient (-1)
  ∧ (1 : ℝ) ≠ -1 := by
  refine ⟨?_, ?_, by norm_num⟩
  · rw [show corrSection "selic" "ipca" dfA dfB
        = CorrOutcome.coefficient (pearson [1, 2] [2020, 2021]) from rfl]
    rw [pearson_12_year]
  · rw [show corrSection "ipca" "selic" dfB dfA
        = CorrOutcome.coefficient (pearson [5, 3] [2020, 2021]) from rfl]
    rw [pearson_53_year]

/-! ### Forecast section (lines 320-339)

The forecast input is built from the unfiltered frame: keep the timestamp and
value columns (renamed `ds`/`y`), `dropna(subset=["ds", "y"])`, sort by `ds`,
require at least 2 remaining rows, then hand the cleaned rows to the external
library (`Prophet().fit(...)`). -/

/-- One forecast input row; either field may be missing. -/
structure PRow where
  ds : Option Nat
  y : Option ℚ
deriving DecidableEq

/-- `df_prophet.dropna(subset=["ds", "y"])`, line 328: keep rows where both
fields are present. -/
def pdropna (l : List PRow) : List PRow :=
  l.filter (fun r => r.ds.isSome && r.y.isSome)

/-- Ascending order on `ds` used by `sort_values(by="ds")`, line 329 (the
default only matters for rows that survive `dropna`, where `ds` is present). -/
def dsLE (a b : PRow) : Prop := a.ds.getD 0 ≤ b.ds.getD 0

instance : DecidableRel dsLE := fun a b => inferInstanceAs (Decidable (a.ds.getD 0 ≤ b.ds.getD 0))

instance : IsTotal PRow dsLE := ⟨fun a b => Nat.le_total (a.ds.getD 0) (b.ds.getD 0)⟩

instance : IsTrans PRow dsLE := ⟨fun _ _ _ hab hbc => Nat.le_trans hab hbc⟩

/-- Outcome of pressing "Gerar Previsão": the invalid-input error (line 324),
the insufficient-data error (line 332), or an invocation of the external
forecasting library on the cleaned rows (line 337). -/
inductive ForecastOutcome where
  | errInvalid
  | errInsufficient
  | fitted (rows : List PRow)
deriving DecidableEq

/-- Lines 320-337: reject an empty frame or a non-datetime timestamp column;
drop rows with missing `ds` or `y` and sort; report insufficient data below 2
rows; otherwise fit on the cleaned rows. -/
def forecastSection (rows : List PRow) (dtypeOk : Bool) : ForecastOutcome :=
  if rows.isEmpty = true ∨ dtypeOk = false then ForecastOutcome.errInvalid
  else if (List.insertionSort dsLE (pdropna rows)).length < 2 then
    ForecastOutcome.errInsufficient
  else ForecastOutcome.fitted (List.insertionSort dsLE (pdropna rows))

/-- C8: rows with a missing timestamp or value are dropped before fitting
(anything fitted is the cleaned sorted rows, all fields present, at least 2
of them), and with fewer than 2 remaining rows the section reports the
insufficient-data error and never invokes the forecasting library. -/
theorem forecastSection_spec (rows : List PRow) (dtypeOk : Bool) :
    (∀ l, forecastSection rows dtypeOk = ForecastOutcome.fitted l →
        l = List.insertionSort dsLE (pdropna rows)
      ∧ 2 ≤ l.length
      ∧ ∀ r ∈ l, r.ds.isSome = true ∧ r.y.isSome = true)
  ∧ (rows ≠ [] → dtypeOk = true → (pdropna rows).length < 2 →
      forecastSection rows dtypeOk = ForecastOutcome.errInsufficient)
  ∧ ((pdropna rows).length < 2 →
      ∀ l, forecastSection rows dtypeOk ≠ ForecastOutcome.fitted l) := by
  have hguard : ∀ (hr : rows ≠ []) (hd : dtypeOk = true),
      ¬(rows.isEmpty = true ∨ dtypeOk = false) := by
    intro hr hd hor
    rcases hor with h | h
    · exact hr (List.isEmpty_iff.mp h)
    · rw [hd] at h
      cases h
  refine ⟨?_, ?_, ?_⟩
  · intro l hl
    unfold forecastSection at hl
    by_cases h1 : rows.isEmpty = true ∨ dtypeOk = false
    · rw [if_pos h1] at hl
      cases hl
    · rw [if_neg h1] at hl
      by_cases h2 : (List.insertionSort dsLE (pdropna rows)).length < 2
      · rw [if_pos h2] at hl
        cases hl
      · rw [if_neg h2] at hl
        injection hl with hX
        refine ⟨hX.symm, ?_, ?_⟩
        · rw [← hX]
          omega
        · intro r hr
          rw [← hX] at hr
          have hrm := (List.mem_insertionSort dsLE).mp hr
          have hok := (List.mem_filter.mp hrm).2
          exact ⟨(Bool.and_eq_true _ _).mp hok |>.1, (Bool.and_eq_true _ _).mp hok |>.2⟩
  · intro hr hd hlen
    unfold forecastSection
    rw [if_neg (hguard hr hd),
      if_pos (by rw [List.length_insertionSort]; exact hlen)]
  · intro hlen l
    unfold forecastSection
    by_cases h1 : rows.isEmpty = true ∨ dtypeOk = false
    · rw [if_pos h1]
      intro h
      cases h
    · rw [if_neg h1, if_pos (by rw [List.length_insertionSort]; exact hlen)]
      intro h
      cases h

/-- Forecast rows for the C8 witness: one row missing its value, one
complete — only one row survives cleaning. -/
def wProphetRows : List PRow := [⟨some 1, none⟩, ⟨some 2, some 3⟩]

/-- Forecast rows with two complete rows, out of order. -/
def wProphetRows2 : List PRow := [⟨some 2, some 3⟩, ⟨some 1, some 1⟩]

/-- Witness for C8: the short input triggers the insufficient-data error and
is never fitted; the two-row input is fitted on its cleaned sorted rows. -/
theorem forecastSection_spec_witness :
    wProphetRows ≠ [] ∧ (pdropna wProphetRows).length < 2 ∧
    forecastSection wProphetRows true = ForecastOutcome.errInsufficient ∧
    (∀ l, forecastSection wProphetRows true ≠ ForecastOutcome.fitted l) ∧
    (List.insertionSort dsLE (pdropna wProphetRows2)
        = List.insertionSort dsLE (pdropna wProphetRows2)
      ∧ 2 ≤ (List.insertionSort dsLE (pdropna wProphetRows2)).length
      ∧ ∀ r ∈ List.insertionSort dsLE (pdropna wProphetRows2),
          r.ds.isSome = true ∧ r.y.isSome = true) :=
  ⟨by decide, by decide,
    (forecastSection_spec wProphetRows true).2.1 (by decide) rfl (by decide),
    (forecastSection_spec wProphetRows true).2.2 (by decide),
    (forecastSection_spec wProphetRows2 true).1
      (List.insertionSort dsLE (pdropna wProphetRows2)) rfl⟩
